import Mathlib

/-!
Verification of the Artifact 5 Runtime Admissibility Gate schemas
(`artifact_5_schemas/schemas.py`) against their specification.

The Python source declares two Pydantic record types, `JudgmentEvent` and
`ConstraintArtifact`, plus the `Decision`, `ReasonCode` and `BlockMode`
literal vocabularies and a `PriorArtifactRef` helper model.  We embed the
records as Lean structures and Pydantic's construction-time validation as
explicit `validate` functions from raw keyword-argument inputs (every field
optional in the input; required fields without defaults reject a missing
value).  Floating-point scores are modelled as rationals, `datetime` as an
abstract timestamp, and Python's `str.strip()` (applied by the
`str_strip_whitespace=True` model configuration) as `pystrip`.
-/

namespace Artifact5

/-- Whitespace test used by Python's `str.strip()`, modelled with
`Char.isWhitespace`. -/
def isWS (c : Char) : Bool := c.isWhitespace

/-- Strip leading and trailing whitespace from a character list, as Python's
`str.strip()` does: drop whitespace from the front, then from the back. -/
def stripList (l : List Char) : List Char :=
  List.rdropWhile isWS (List.dropWhile isWS l)

/-- Model of Python's `str.strip()`, applied by Pydantic when
`str_strip_whitespace=True`. -/
def pystrip (s : String) : String := ⟨stripList s.data⟩

theorem dropWhile_rdropWhile_of_clean {p : Char → Bool} {m : List Char}
    (hclean : List.dropWhile p m = m) :
    List.dropWhile p (List.rdropWhile p m) = List.rdropWhile p m := by
  obtain ⟨t, ht⟩ := List.rdropWhile_prefix p m
  cases hr : List.rdropWhile p m with
  | nil => rfl
  | cons a r =>
    rw [hr] at ht
    subst ht
    have ha : p a = false := by
      by_contra hcon
      rw [Bool.not_eq_false] at hcon
      rw [List.cons_append, List.dropWhile_cons_of_pos hcon] at hclean
      have hlen := congrArg List.length hclean
      have hle := (List.dropWhile_suffix (l := r ++ t) p).sublist.length_le
      simp only [List.length_cons] at hlen
      omega
    exact List.dropWhile_cons_of_neg (by simp [ha])

theorem stripList_idem (l : List Char) : stripList (stripList l) = stripList l := by
  unfold stripList
  rw [dropWhile_rdropWhile_of_clean (List.dropWhile_idempotent isWS l),
    List.rdropWhile_idempotent]

theorem pystrip_idem (s : String) : pystrip (pystrip s) = pystrip s := by
  unfold pystrip
  exact congrArg String.mk (stripList_idem s.data)

/-- Gate decision outcomes, translated from the `Decision` literal type
(`Literal["ADMIT", "ESCALATE", "HALT"]`). -/
inductive Decision where
  | ADMIT
  | ESCALATE
  | HALT
deriving DecidableEq, Repr

/-- Machine-readable reason for a gate decision, translated from the
`ReasonCode` literal type. -/
inductive ReasonCode where
  | DRIFT_THRESHOLD_EXCEEDED
  | PRIOR_CONSTRAINT_MATCH
deriving DecidableEq, Repr

/-- Block mode semantics, translated from the `BlockMode` literal type. -/
inductive BlockMode where
  | DEFER
  | STOP
deriving DecidableEq, Repr

/-- The `Literal["HALT", "ESCALATE"]` type of `ConstraintArtifact.decision`:
only the two blocking decisions are admissible values. -/
inductive BlockingDecision where
  | HALT
  | ESCALATE
deriving DecidableEq, Repr

/-- Inclusion of the blocking decisions into the full decision vocabulary. -/
def BlockingDecision.toDecision : BlockingDecision → Decision
  | .HALT => .HALT
  | .ESCALATE => .ESCALATE

/-- Abstract model of a Python `datetime` value: an opaque timestamp carrying
a single rational coordinate. -/
structure DateTime where
  stamp : ℚ
deriving DecidableEq, Repr

/-- Translated from the `PriorArtifactRef` Pydantic model: a lightweight
reference `{type, id, optional uri}` to a prior verification artifact.  Its
model configuration does not enable whitespace stripping. -/
structure PriorArtifactRef where
  type : String
  id : String
  uri : Option String := none
deriving DecidableEq, Repr

/-- Translated from the `JudgmentEvent` Pydantic model: the immutable audit
record of one gate decision. -/
structure JudgmentEvent where
  id : String
  decision : Decision
  timestamp : DateTime
  intent_hash : String
  runtime_context_hash : String
  drift_score : Option ℚ := none
  prior_artifact_refs : List PriorArtifactRef := []
deriving DecidableEq, Repr

/-- Raw keyword arguments of a `JudgmentEvent(...)` construction: every field
may be supplied or omitted.  For `drift_score` (default `None`) and
`prior_artifact_refs` (default `[]`) omission and the default value coincide. -/
structure JudgmentEventInput where
  id : Option String := none
  decision : Option Decision := none
  timestamp : Option DateTime := none
  intent_hash : Option String := none
  runtime_context_hash : Option String := none
  drift_score : Option ℚ := none
  prior_artifact_refs : Option (List PriorArtifactRef) := none
deriving DecidableEq, Repr

/-- Pydantic validation of a `JudgmentEvent` construction: the five fields
declared with `Field(...)` are required; `drift_score` must lie in `[0, 1]`
(`ge=0.0, le=1.0`) when present; `prior_artifact_refs` defaults to the empty
list; `str_strip_whitespace=True` strips every `str` field. -/
def JudgmentEvent.validate (inp : JudgmentEventInput) : Option JudgmentEvent :=
  match inp.id, inp.decision, inp.timestamp, inp.intent_hash, inp.runtime_context_hash with
  | some i, some d, some t, some ih, some rh =>
    match inp.drift_score with
    | some s =>
      if 0 ≤ s ∧ s ≤ 1 then
        some { id := pystrip i, decision := d, timestamp := t,
               intent_hash := pystrip ih, runtime_context_hash := pystrip rh,
               drift_score := some s,
               prior_artifact_refs := inp.prior_artifact_refs.getD [] }
      else none
    | none =>
      some { id := pystrip i, decision := d, timestamp := t,
             intent_hash := pystrip ih, runtime_context_hash := pystrip rh,
             drift_score := none,
             prior_artifact_refs := inp.prior_artifact_refs.getD [] }
  | _, _, _, _, _ => none

/-- Translated from `JudgmentEvent.get_filename`:
`f"judgment_event_{self.id}.json"`. -/
def JudgmentEvent.get_filename (e : JudgmentEvent) : String :=
  "judgment_event_" ++ e.id ++ ".json"

/-- Translated from the `ConstraintArtifact` Pydantic model: the fast-path
memory entry keyed by `runtime_context_hash`. -/
structure ConstraintArtifact where
  runtime_context_hash : String
  judgment_id : String
  decision : BlockingDecision
  block_mode : BlockMode
  reason_code : ReasonCode
  reason_detail : Option String := none
  drift_score_at_block : Option ℚ := none
  created_at : DateTime
deriving DecidableEq, Repr

/-- Raw keyword arguments of a `ConstraintArtifact(...)` construction.  The
`decision` argument ranges over the full `Decision` vocabulary: validation
against the `Literal["HALT", "ESCALATE"]` annotation happens in
`ConstraintArtifact.validate`. -/
structure ConstraintArtifactInput where
  runtime_context_hash : Option String := none
  judgment_id : Option String := none
  decision : Option Decision := none
  block_mode : Option BlockMode := none
  reason_code : Option ReasonCode := none
  reason_detail : Option String := none
  drift_score_at_block : Option ℚ := none
  created_at : Option DateTime := none
deriving DecidableEq, Repr

/-- Pydantic validation of a `ConstraintArtifact` construction: the six
fields declared with `Field(...)` are required; `decision` must be `HALT` or
`ESCALATE` (the `Literal` annotation rejects `ADMIT`); `drift_score_at_block`
must lie in `[0, 1]` when present; `str_strip_whitespace=True` strips every
`str` field.  No validator relates `block_mode`, `reason_code` or
`drift_score_at_block` to one another. -/
def ConstraintArtifact.validate (inp : ConstraintArtifactInput) : Option ConstraintArtifact :=
  match inp.runtime_context_hash, inp.judgment_id, inp.decision, inp.block_mode,
        inp.reason_code, inp.created_at with
  | some rh, some jid, some d, some bm, some rc, some ca =>
    match (match d with
           | Decision.ADMIT => none
           | Decision.ESCALATE => some BlockingDecision.ESCALATE
           | Decision.HALT => some BlockingDecision.HALT : Option BlockingDecision) with
    | some bd =>
      match inp.drift_score_at_block with
      | some s =>
        if 0 ≤ s ∧ s ≤ 1 then
          some { runtime_context_hash := pystrip rh, judgment_id := pystrip jid,
                 decision := bd, block_mode := bm, reason_code := rc,
                 reason_detail := inp.reason_detail.map pystrip,
                 drift_score_at_block := some s, created_at := ca }
        else none
      | none =>
        some { runtime_context_hash := pystrip rh, judgment_id := pystrip jid,
               decision := bd, block_mode := bm, reason_code := rc,
               reason_detail := inp.reason_detail.map pystrip,
               drift_score_at_block := none, created_at := ca }
    | none => none
  | _, _, _, _, _, _ => none

/-- Translated from `ConstraintArtifact.get_filename`:
`f"constraint_{self.runtime_context_hash}.json"`. -/
def ConstraintArtifact.get_filename (c : ConstraintArtifact) : String :=
  "constraint_" ++ c.runtime_context_hash ++ ".json"

/-- Modelled from the spec: the Admission Engine's threshold classification
(§4.2 Step 2, also documented on the `Decision` literal in the source) is not
implemented in `src/`.  `score ≤ 0.3 → ADMIT`; `0.3 < score ≤ 0.7 → ESCALATE`;
`score > 0.7 → HALT`. -/
def classify (s : ℚ) : Decision :=
  if s ≤ mkRat 3 10 then Decision.ADMIT
  else if s ≤ mkRat 7 10 then Decision.ESCALATE
  else Decision.HALT

/-- Modelled from the spec: the mutable shared state of the gate — the
Constraint Store keyed by `runtime_context_hash` and the append-only Judgment
Log.  Neither adapter is implemented in `src/`. -/
structure GateState where
  constraints : List (String × ConstraintArtifact)
  log : List JudgmentEvent
deriving Repr

/-- Result of one `evaluate` call: the decision returned to the caller,
whether the Drift Scorer was invoked, and the updated persistent state. -/
structure EvalOutcome where
  decision : Decision
  scorer_invoked : Bool
  state : GateState
deriving Repr

/-- Modelled from the spec: the Admission Engine's `evaluate` operation
(§4.2) is not implemented in `src/`.  Step 1 probes the Constraint Store at
`hasher ctx`; on a hit it short-circuits with the stored decision, emits an
audit `JudgmentEvent` with `drift_score = null` and a `prior_artifact_refs`
entry naming the matched constraint's `judgment_id`, and does not invoke the
Drift Scorer nor overwrite the constraint.  On a miss, Step 2 invokes the
scorer and classifies; Step 3 writes the `JudgmentEvent` and, for a blocking
decision, the `ConstraintArtifact` with `reason_code =
DRIFT_THRESHOLD_EXCEEDED` and `drift_score_at_block` = the score. -/
def evaluate (hasher : String → String) (scorer : String → String → ℚ)
    (fresh : String) (now : DateTime) (intent ctx : String) (st : GateState) :
    EvalOutcome :=
  let ih := hasher intent
  let ch := hasher ctx
  match st.constraints.lookup ch with
  | some c =>
    let ev : JudgmentEvent :=
      { id := fresh, decision := c.decision.toDecision, timestamp := now,
        intent_hash := ih, runtime_context_hash := ch, drift_score := none,
        prior_artifact_refs := [{ type := "judgment_event", id := c.judgment_id }] }
    { decision := c.decision.toDecision, scorer_invoked := false,
      state := { constraints := st.constraints, log := ev :: st.log } }
  | none =>
    let s := scorer intent ctx
    let d := classify s
    let ev : JudgmentEvent :=
      { id := fresh, decision := d, timestamp := now,
        intent_hash := ih, runtime_context_hash := ch, drift_score := some s,
        prior_artifact_refs := [] }
    match d with
    | Decision.ADMIT =>
      { decision := Decision.ADMIT, scorer_invoked := true,
        state := { constraints := st.constraints, log := ev :: st.log } }
    | Decision.ESCALATE =>
      let c : ConstraintArtifact :=
        { runtime_context_hash := ch, judgment_id := fresh,
          decision := BlockingDecision.ESCALATE, block_mode := BlockMode.DEFER,
          reason_code := ReasonCode.DRIFT_THRESHOLD_EXCEEDED,
          drift_score_at_block := some s, created_at := now }
      { decision := Decision.ESCALATE, scorer_invoked := true,
        state := { constraints := (ch, c) :: st.constraints, log := ev :: st.log } }
    | Decision.HALT =>
      let c : ConstraintArtifact :=
        { runtime_context_hash := ch, judgment_id := fresh,
          decision := BlockingDecision.HALT, block_mode := BlockMode.STOP,
          reason_code := ReasonCode.DRIFT_THRESHOLD_EXCEEDED,
          drift_score_at_block := some s, created_at := now }
      { decision := Decision.HALT, scorer_invoked := true,
        state := { constraints := (ch, c) :: st.constraints, log := ev :: st.log } }

/-- JSON values, the serialization target of Pydantic's `model_dump_json`.
Numbers are modelled as rationals. -/
inductive Json where
  | null
  | str (s : String)
  | num (q : ℚ)
  | arr (elts : List Json)
  | obj (fields : List (String × Json))

/-- Serialize an optional string: `None` becomes JSON `null`. -/
def Json.ofOptStr : Option String → Json
  | none => Json.null
  | some s => Json.str s

/-- Serialize an optional number: `None` becomes JSON `null`. -/
def Json.ofOptNum : Option ℚ → Json
  | none => Json.null
  | some q => Json.num q

/-- Field access on a JSON object. -/
def Json.getField (j : Json) (k : String) : Option Json :=
  match j with
  | Json.obj kvs => kvs.lookup k
  | _ => none

/-- Read a JSON value as a string. -/
def Json.asStr (j : Json) : Option String :=
  match j with
  | Json.str s => some s
  | _ => none

/-- Read a JSON value as a number. -/
def Json.asNum (j : Json) : Option ℚ :=
  match j with
  | Json.num q => some q
  | _ => none

/-- Read a JSON value as a nullable string. -/
def Json.asOptStr (j : Json) : Option (Option String) :=
  match j with
  | Json.null => some none
  | Json.str s => some (some s)
  | _ => none

/-- Read a JSON value as a nullable number. -/
def Json.asOptNum (j : Json) : Option (Option ℚ) :=
  match j with
  | Json.null => some none
  | Json.num q => some (some q)
  | _ => none

/-- Read a JSON value as an array. -/
def Json.asArr (j : Json) : Option (List Json) :=
  match j with
  | Json.arr xs => some xs
  | _ => none

/-- Read a required string field of a JSON object. -/
def Json.getStr (j : Json) (k : String) : Option String :=
  (j.getField k).bind Json.asStr

/-- Read a required numeric field of a JSON object. -/
def Json.getNum (j : Json) (k : String) : Option ℚ :=
  (j.getField k).bind Json.asNum

/-- Read a nullable string field of a JSON object. -/
def Json.getOptStr (j : Json) (k : String) : Option (Option String) :=
  (j.getField k).bind Json.asOptStr

/-- Read a nullable numeric field of a JSON object. -/
def Json.getOptNum (j : Json) (k : String) : Option (Option ℚ) :=
  (j.getField k).bind Json.asOptNum

/-- Read an array field of a JSON object. -/
def Json.getArr (j : Json) (k : String) : Option (List Json) :=
  (j.getField k).bind Json.asArr

/-- Serialized form of a `Decision` literal. -/
def Decision.toStr : Decision → String
  | Decision.ADMIT => "ADMIT"
  | Decision.ESCALATE => "ESCALATE"
  | Decision.HALT => "HALT"

/-- Parse a `Decision` literal, rejecting any other string. -/
def Decision.ofStr : String → Option Decision
  | "ADMIT" => some Decision.ADMIT
  | "ESCALATE" => some Decision.ESCALATE
  | "HALT" => some Decision.HALT
  | _ => none

/-- Serialized form of a blocking decision (the `Literal["HALT", "ESCALATE"]`
values are serialized like any `Decision`). -/
def BlockingDecision.toStr : BlockingDecision → String
  | BlockingDecision.HALT => "HALT"
  | BlockingDecision.ESCALATE => "ESCALATE"

/-- Serialized form of a `BlockMode` literal. -/
def BlockMode.toStr : BlockMode → String
  | BlockMode.DEFER => "DEFER"
  | BlockMode.STOP => "STOP"

/-- Parse a `BlockMode` literal, rejecting any other string. -/
def BlockMode.ofStr : String → Option BlockMode
  | "DEFER" => some BlockMode.DEFER
  | "STOP" => some BlockMode.STOP
  | _ => none

/-- Serialized form of a `ReasonCode` literal. -/
def ReasonCode.toStr : ReasonCode → String
  | ReasonCode.DRIFT_THRESHOLD_EXCEEDED => "DRIFT_THRESHOLD_EXCEEDED"
  | ReasonCode.PRIOR_CONSTRAINT_MATCH => "PRIOR_CONSTRAINT_MATCH"

/-- Parse a `ReasonCode` literal, rejecting any other string. -/
def ReasonCode.ofStr : String → Option ReasonCode
  | "DRIFT_THRESHOLD_EXCEEDED" => some ReasonCode.DRIFT_THRESHOLD_EXCEEDED
  | "PRIOR_CONSTRAINT_MATCH" => some ReasonCode.PRIOR_CONSTRAINT_MATCH
  | _ => none

/-- Serialization of a `PriorArtifactRef` over its declared fields
`type, id, uri(nullable)`. -/
def PriorArtifactRef.toJson (r : PriorArtifactRef) : Json :=
  Json.obj [("type", Json.str r.type), ("id", Json.str r.id),
            ("uri", Json.ofOptStr r.uri)]

/-- Deserialization and validation of a `PriorArtifactRef`: `type` and `id`
are required strings, `uri` nullable; its model configuration does not strip
whitespace. -/
def PriorArtifactRef.ofJson (j : Json) : Option PriorArtifactRef :=
  match j.getStr "type", j.getStr "id", j.getOptStr "uri" with
  | some t, some i, some u => some { type := t, id := i, uri := u }
  | _, _, _ => none

/-- Serialization of a `JudgmentEvent` over its declared fields, as Pydantic's
`model_dump_json` does. -/
def JudgmentEvent.toJson (e : JudgmentEvent) : Json :=
  Json.obj [("id", Json.str e.id),
            ("decision", Json.str e.decision.toStr),
            ("timestamp", Json.num e.timestamp.stamp),
            ("intent_hash", Json.str e.intent_hash),
            ("runtime_context_hash", Json.str e.runtime_context_hash),
            ("drift_score", Json.ofOptNum e.drift_score),
            ("prior_artifact_refs", Json.arr (e.prior_artifact_refs.map PriorArtifactRef.toJson))]

/-- Deserialize a list of prior-artifact references, failing if any element
fails. -/
def decodeRefs : List Json → Option (List PriorArtifactRef)
  | [] => some []
  | j :: js =>
    match PriorArtifactRef.ofJson j, decodeRefs js with
    | some r, some rs => some (r :: rs)
    | _, _ => none

/-- Deserialization of a `JudgmentEvent`, as Pydantic's `model_validate_json`
does: read the raw fields, then run the same construction-time validation. -/
def JudgmentEvent.ofJson (j : Json) : Option JudgmentEvent :=
  match j.getStr "id", (j.getStr "decision").bind Decision.ofStr,
        j.getNum "timestamp", j.getStr "intent_hash",
        j.getStr "runtime_context_hash", j.getOptNum "drift_score",
        (j.getArr "prior_artifact_refs").bind decodeRefs with
  | some i, some d, some t, some ih, some rh, some ds, some refs =>
    JudgmentEvent.validate
      { id := some i, decision := some d, timestamp := some ⟨t⟩,
        intent_hash := some ih, runtime_context_hash := some rh,
        drift_score := ds, prior_artifact_refs := some refs }
  | _, _, _, _, _, _, _ => none

/-- Serialization of a `ConstraintArtifact` over its declared fields, as
Pydantic's `model_dump_json` does. -/
def ConstraintArtifact.toJson (c : ConstraintArtifact) : Json :=
  Json.obj [("runtime_context_hash", Json.str c.runtime_context_hash),
            ("judgment_id", Json.str c.judgment_id),
            ("decision", Json.str c.decision.toStr),
            ("block_mode", Json.str c.block_mode.toStr),
            ("reason_code", Json.str c.reason_code.toStr),
            ("reason_detail", Json.ofOptStr c.reason_detail),
            ("drift_score_at_block", Json.ofOptNum c.drift_score_at_block),
            ("created_at", Json.num c.created_at.stamp)]

/-- Deserialization of a `ConstraintArtifact`, as Pydantic's
`model_validate_json` does: read the raw fields, then run the same
construction-time validation (which enforces the `Literal` annotation on
`decision`). -/
def ConstraintArtifact.ofJson (j : Json) : Option ConstraintArtifact :=
  match j.getStr "runtime_context_hash", j.getStr "judgment_id",
        (j.getStr "decision").bind Decision.ofStr,
        (j.getStr "block_mode").bind BlockMode.ofStr,
        (j.getStr "reason_code").bind ReasonCode.ofStr,
        j.getOptStr "reason_detail", j.getOptNum "drift_score_at_block",
        j.getNum "created_at" with
  | some rh, some jid, some d, some bm, some rc, some rd, some ds, some ca =>
    ConstraintArtifact.validate
      { runtime_context_hash := some rh, judgment_id := some jid,
        decision := some d, block_mode := some bm, reason_code := some rc,
        reason_detail := rd, drift_score_at_block := ds, created_at := some ⟨ca⟩ }
  | _, _, _, _, _, _, _, _ => none

/-! ## Theorems -/

/-- Claim C1: for every drift score `s` in `[0, 1]`, the gate's
classification maps `s ≤ 0.3` to ADMIT, `0.3 < s ≤ 0.7` to ESCALATE and
`s > 0.7` to HALT, with the boundary values `0.3` and `0.7` belonging to the
lower-severity bucket. -/
theorem classify_thresholds (s : ℚ) (h0 : 0 ≤ s) (h1 : s ≤ 1) :
    (s ≤ mkRat 3 10 → classify s = Decision.ADMIT) ∧
    (mkRat 3 10 < s → s ≤ mkRat 7 10 → classify s = Decision.ESCALATE) ∧
    (mkRat 7 10 < s → classify s = Decision.HALT) ∧
    classify (mkRat 3 10) = Decision.ADMIT ∧
    classify (mkRat 7 10) = Decision.ESCALATE := by
  refine ⟨?_, ?_, ?_, by decide, by decide⟩
  · intro h
    simp [classify, h]
  · intro hl hu
    rw [classify, if_neg (not_le.mpr hl), if_pos hu]
  · intro hh
    have h3 : mkRat 3 10 < mkRat 7 10 := by decide
    rw [classify, if_neg (not_le.mpr (h3.trans hh)), if_neg (not_le.mpr hh)]

/-- Witness for C1 at the concrete scores `1/2` and `9/10`. -/
theorem classify_thresholds_witness :
    classify (mkRat 1 2) = Decision.ESCALATE ∧ classify (mkRat 9 10) = Decision.HALT :=
  ⟨(classify_thresholds (mkRat 1 2) (by decide) (by decide)).2.1 (by decide) (by decide),
   (classify_thresholds (mkRat 9 10) (by decide) (by decide)).2.2.1 (by decide)⟩

/-- Claim C2: every validly constructed `ConstraintArtifact` has decision
HALT or ESCALATE, and a construction supplying decision ADMIT fails
validation, so no constraint record exists for an ADMIT decision. -/
theorem constraint_decision_blocking :
    (∀ inp c, ConstraintArtifact.validate inp = some c →
      c.decision = BlockingDecision.HALT ∨ c.decision = BlockingDecision.ESCALATE) ∧
    (∀ inp, inp.decision = some Decision.ADMIT → ConstraintArtifact.validate inp = none) := by
  constructor
  · intro inp c _
    cases c.decision
    · exact Or.inl rfl
    · exact Or.inr rfl
  · intro inp h
    unfold ConstraintArtifact.validate
    split
    · rename_i rh jid d bm rc ca heq
      · simp_all
    · rfl

/-- Witness for C2: a concrete ADMIT construction is rejected. -/
theorem constraint_decision_blocking_witness :
    ConstraintArtifact.validate
      { runtime_context_hash := some "ctx-hash", judgment_id := some "je-001",
        decision := some Decision.ADMIT, block_mode := some BlockMode.STOP,
        reason_code := some ReasonCode.DRIFT_THRESHOLD_EXCEEDED,
        created_at := some ⟨0⟩ } = none :=
  constraint_decision_blocking.2 _ rfl

/-- Keyword arguments pairing decision ESCALATE with block mode STOP, which
the claimed invariant of C3 would forbid. -/
def mismatchedPairInput : ConstraintArtifactInput :=
  { runtime_context_hash := some "ctx-hash", judgment_id := some "je-001",
    decision := some Decision.ESCALATE, block_mode := some BlockMode.STOP,
    reason_code := some ReasonCode.DRIFT_THRESHOLD_EXCEEDED,
    created_at := some ⟨0⟩ }

/-- The artifact produced by validating `mismatchedPairInput`. -/
def mismatchedPairArtifact : ConstraintArtifact :=
  { runtime_context_hash := "ctx-hash", judgment_id := "je-001",
    decision := BlockingDecision.ESCALATE, block_mode := BlockMode.STOP,
    reason_code := ReasonCode.DRIFT_THRESHOLD_EXCEEDED,
    created_at := ⟨0⟩ }

/-- Counterexample to C3: validation accepts a `ConstraintArtifact` pairing
decision ESCALATE with block mode STOP — no validator derives `block_mode`
from `decision`. -/
theorem block_mode_not_derived_counterexample :
    ConstraintArtifact.validate mismatchedPairInput = some mismatchedPairArtifact ∧
    mismatchedPairArtifact.decision = BlockingDecision.ESCALATE ∧
    mismatchedPairArtifact.block_mode = BlockMode.STOP :=
  ⟨rfl, rfl, rfl⟩

/-- Keyword arguments combining a given blocking decision with a given block
mode over otherwise fixed fields. -/
def pairInput (d : BlockingDecision) (bm : BlockMode) : ConstraintArtifactInput :=
  { runtime_context_hash := some "ctx-hash", judgment_id := some "je-001",
    decision := some d.toDecision, block_mode := some bm,
    reason_code := some ReasonCode.DRIFT_THRESHOLD_EXCEEDED,
    created_at := some ⟨0⟩ }

/-- The artifact produced by validating `pairInput d bm`. -/
def pairArtifact (d : BlockingDecision) (bm : BlockMode) : ConstraintArtifact :=
  { runtime_context_hash := "ctx-hash", judgment_id := "je-001",
    decision := d, block_mode := bm,
    reason_code := ReasonCode.DRIFT_THRESHOLD_EXCEEDED,
    created_at := ⟨0⟩ }

/-- Claim C3 (amended): `block_mode` is a required field restricted to
{DEFER, STOP}, but it is not derived from `decision`: validation accepts every
combination of a blocking decision with a block mode, including ESCALATE with
STOP and HALT with DEFER. -/
theorem block_mode_independent (d : BlockingDecision) (bm : BlockMode) :
    ConstraintArtifact.validate (pairInput d bm) = some (pairArtifact d bm) ∧
    (pairArtifact d bm).decision = d ∧ (pairArtifact d bm).block_mode = bm := by
  cases d <;> cases bm <;> exact ⟨rfl, rfl, rfl⟩

/-- Keyword arguments pairing reason code PRIOR_CONSTRAINT_MATCH (fast path)
with a present `drift_score_at_block`, which the claimed invariant of C4
would forbid. -/
def fastPathScoredInput : ConstraintArtifactInput :=
  { runtime_context_hash := some "ctx-hash", judgment_id := some "je-001",
    decision := some Decision.HALT, block_mode := some BlockMode.STOP,
    reason_code := some ReasonCode.PRIOR_CONSTRAINT_MATCH,
    drift_score_at_block := some (mkRat 1 2), created_at := some ⟨0⟩ }

/-- The artifact produced by validating `fastPathScoredInput`. -/
def fastPathScoredArtifact : ConstraintArtifact :=
  { runtime_context_hash := "ctx-hash", judgment_id := "je-001",
    decision := BlockingDecision.HALT, block_mode := BlockMode.STOP,
    reason_code := ReasonCode.PRIOR_CONSTRAINT_MATCH,
    drift_score_at_block := some (mkRat 1 2), created_at := ⟨0⟩ }

/-- Counterexample to C4: validation accepts a `ConstraintArtifact` whose
reason code is PRIOR_CONSTRAINT_MATCH while `drift_score_at_block` is
present — no validator ties the score's presence to the reason code. -/
theorem drift_score_at_block_counterexample :
    ConstraintArtifact.validate fastPathScoredInput = some fastPathScoredArtifact ∧
    fastPathScoredArtifact.reason_code = ReasonCode.PRIOR_CONSTRAINT_MATCH ∧
    fastPathScoredArtifact.drift_score_at_block = some (mkRat 1 2) :=
  ⟨rfl, rfl, rfl⟩

/-- Keyword arguments combining a given reason code with a given present
drift score over otherwise fixed fields. -/
def scoredInput (rc : ReasonCode) (s : ℚ) : ConstraintArtifactInput :=
  { runtime_context_hash := some "ctx-hash", judgment_id := some "je-001",
    decision := some Decision.HALT, block_mode := some BlockMode.STOP,
    reason_code := some rc, drift_score_at_block := some s,
    created_at := some ⟨0⟩ }

/-- The artifact produced by validating `scoredInput rc s` for `s ∈ [0, 1]`. -/
def scoredArtifact (rc : ReasonCode) (s : ℚ) : ConstraintArtifact :=
  { runtime_context_hash := "ctx-hash", judgment_id := "je-001",
    decision := BlockingDecision.HALT, block_mode := BlockMode.STOP,
    reason_code := rc, drift_score_at_block := some s,
    created_at := ⟨0⟩ }

/-- Claim C4 (amended): `drift_score_at_block` is optional and only
constrained to `[0, 1]`; validation does not tie its presence to
`reason_code`, so it may be present with either reason code, including
PRIOR_CONSTRAINT_MATCH. -/
theorem drift_score_at_block_independent (rc : ReasonCode) (s : ℚ)
    (h0 : 0 ≤ s) (h1 : s ≤ 1) :
    ConstraintArtifact.validate (scoredInput rc s) = some (scoredArtifact rc s) ∧
    (scoredArtifact rc s).reason_code = rc ∧
    (scoredArtifact rc s).drift_score_at_block = some s := by
  refine ⟨?_, rfl, rfl⟩
  unfold ConstraintArtifact.validate scoredInput
  simp only [if_pos (And.intro h0 h1)]
  rfl

/-- Witness for C4 (amended) at reason code PRIOR_CONSTRAINT_MATCH and
score `1/2`. -/
theorem drift_score_at_block_independent_witness :
    ConstraintArtifact.validate (scoredInput ReasonCode.PRIOR_CONSTRAINT_MATCH (mkRat 1 2)) =
      some (scoredArtifact ReasonCode.PRIOR_CONSTRAINT_MATCH (mkRat 1 2)) ∧
    (scoredArtifact ReasonCode.PRIOR_CONSTRAINT_MATCH (mkRat 1 2)).reason_code =
      ReasonCode.PRIOR_CONSTRAINT_MATCH ∧
    (scoredArtifact ReasonCode.PRIOR_CONSTRAINT_MATCH (mkRat 1 2)).drift_score_at_block =
      some (mkRat 1 2) :=
  drift_score_at_block_independent ReasonCode.PRIOR_CONSTRAINT_MATCH (mkRat 1 2)
    (by decide) (by decide)

/-- Claim C7: `get_filename` returns exactly `judgment_event_{id}.json` for a
`JudgmentEvent` and `constraint_{runtime_context_hash}.json` for a
`ConstraintArtifact`. -/
theorem get_filename_convention :
    (∀ e : JudgmentEvent, e.get_filename = "judgment_event_" ++ e.id ++ ".json") ∧
    (∀ c : ConstraintArtifact, c.get_filename = "constraint_" ++ c.runtime_context_hash ++ ".json") :=
  ⟨fun _ => rfl, fun _ => rfl⟩

/-- Claim C5: a validly constructed `JudgmentEvent` has `drift_score` null or
in `[0, 1]`; construction with a score below 0 or above 1 fails validation,
and the same bound holds for `ConstraintArtifact.drift_score_at_block`. -/
theorem drift_score_bounds :
    (∀ inp e, JudgmentEvent.validate inp = some e →
       e.drift_score = none ∨ ∃ s, e.drift_score = some s ∧ 0 ≤ s ∧ s ≤ 1) ∧
    (∀ inp s, inp.drift_score = some s → (s < 0 ∨ 1 < s) →
       JudgmentEvent.validate inp = none) ∧
    (∀ inp c, ConstraintArtifact.validate inp = some c →
       c.drift_score_at_block = none ∨ ∃ s, c.drift_score_at_block = some s ∧ 0 ≤ s ∧ s ≤ 1) ∧
    (∀ inp s, inp.drift_score_at_block = some s → (s < 0 ∨ 1 < s) →
       ConstraintArtifact.validate inp = none) := by
  refine ⟨?_, ?_, ?_, ?_⟩
  · intro inp e h
    unfold JudgmentEvent.validate at h
    split at h
    · split at h
      · rename_i s hds
        split at h
        · rename_i hbound
          cases h
          exact Or.inr ⟨s, rfl, hbound⟩
        · exact absurd h (by simp)
      · cases h
        exact Or.inl rfl
    · exact absurd h (by simp)
  · intro inp s hds hout
    unfold JudgmentEvent.validate
    split
    · split
      · rename_i s2 hds2
        rw [hds] at hds2
        injection hds2 with hss
        subst hss
        rw [if_neg]
        rintro ⟨hl, hu⟩
        rcases hout with h | h
        · exact absurd hl (not_le.mpr h)
        · exact absurd hu (not_le.mpr h)
      · rename_i hds2
        rw [hds] at hds2
        exact absurd hds2 (by simp)
    · rfl
  · intro inp c h
    unfold ConstraintArtifact.validate at h
    split at h
    · split at h
      · split at h
        · split at h
          · rename_i hbound
            cases h
            exact Or.inr ⟨_, rfl, hbound⟩
          · exact absurd h (by simp)
        · cases h
          exact Or.inl rfl
      · exact absurd h (by simp)
    · exact absurd h (by simp)
  · intro inp s hds hout
    unfold ConstraintArtifact.validate
    split
    · split
      · split
        · rename_i s2 hds2
          rw [hds] at hds2
          injection hds2 with hss
          subst hss
          rw [if_neg]
          rintro ⟨hl, hu⟩
          rcases hout with h | h
          · exact absurd hl (not_le.mpr h)
          · exact absurd hu (not_le.mpr h)
        · rename_i hds2
          rw [hds] at hds2
          exact absurd hds2 (by simp)
      · rfl
    · rfl

/-- Witness for C5: a concrete out-of-range construction is rejected. -/
theorem drift_score_bounds_witness :
    JudgmentEvent.validate
      { id := some "je-001", decision := some Decision.ADMIT, timestamp := some ⟨0⟩,
        intent_hash := some "ih", runtime_context_hash := some "rh",
        drift_score := some 2 } = none ∧
    ConstraintArtifact.validate
      { runtime_context_hash := some "rh", judgment_id := some "je-001",
        decision := some Decision.HALT, block_mode := some BlockMode.STOP,
        reason_code := some ReasonCode.DRIFT_THRESHOLD_EXCEEDED,
        drift_score_at_block := some (-1), created_at := some ⟨0⟩ } = none :=
  ⟨drift_score_bounds.2.1 _ 2 rfl (Or.inr (by decide)),
   drift_score_bounds.2.2.2 _ (-1) rfl (Or.inl (by decide))⟩

/-- Claim C9: constructing a `JudgmentEvent` with only the five required
fields supplied succeeds and yields `prior_artifact_refs = []` and
`drift_score = null`, while omitting any of `id`, `decision`, `timestamp`,
`intent_hash` or `runtime_context_hash` fails validation. -/
theorem judgment_event_defaults :
    (∀ i d t ih rh, JudgmentEvent.validate
       { id := some i, decision := some d, timestamp := some t,
         intent_hash := some ih, runtime_context_hash := some rh } =
       some { id := pystrip i, decision := d, timestamp := t,
              intent_hash := pystrip ih, runtime_context_hash := pystrip rh,
              drift_score := none, prior_artifact_refs := [] }) ∧
    (∀ inp, (inp.id = none ∨ inp.decision = none ∨ inp.timestamp = none ∨
       inp.intent_hash = none ∨ inp.runtime_context_hash = none) →
       JudgmentEvent.validate inp = none) := by
  constructor
  · intro i d t ih rh
    rfl
  · intro inp h
    unfold JudgmentEvent.validate
    split
    · rename_i i d t ih rh heq1 heq2 heq3 heq4 heq5
      rcases h with h | h | h | h | h <;> simp_all
    · rfl

/-- Witness for C9: a concrete construction missing `timestamp` is
rejected. -/
theorem judgment_event_defaults_witness :
    JudgmentEvent.validate
      { id := some "je-001", decision := some Decision.ADMIT,
        intent_hash := some "ih", runtime_context_hash := some "rh" } = none :=
  judgment_event_defaults.2 _ (Or.inr (Or.inr (Or.inl rfl)))

/-- Canonical form of `JudgmentEvent` keyword arguments: every supplied
string field replaced by its stripped form.  Two inputs whose string
arguments differ only in surrounding whitespace have the same canonical
form. -/
def JudgmentEventInput.canon (inp : JudgmentEventInput) : JudgmentEventInput :=
  { inp with id := inp.id.map pystrip, intent_hash := inp.intent_hash.map pystrip,
             runtime_context_hash := inp.runtime_context_hash.map pystrip }

/-- Canonical form of `ConstraintArtifact` keyword arguments, stripping every
supplied string field. -/
def ConstraintArtifactInput.canon (inp : ConstraintArtifactInput) : ConstraintArtifactInput :=
  { inp with runtime_context_hash := inp.runtime_context_hash.map pystrip,
             judgment_id := inp.judgment_id.map pystrip,
             reason_detail := inp.reason_detail.map pystrip }

theorem judgment_validate_canon (inp : JudgmentEventInput) :
    JudgmentEvent.validate inp.canon = JudgmentEvent.validate inp := by
  obtain ⟨oi, od, ot, oih, orh, ods, orefs⟩ := inp
  cases oi <;> cases od <;> cases ot <;> cases oih <;> cases orh <;> cases ods <;>
    simp [JudgmentEvent.validate, JudgmentEventInput.canon, pystrip_idem]

theorem constraint_validate_canon (inp : ConstraintArtifactInput) :
    ConstraintArtifact.validate inp.canon = ConstraintArtifact.validate inp := by
  obtain ⟨orh, ojid, od, obm, orc, ord, ods, oca⟩ := inp
  cases orh <;> cases ojid <;> cases od <;> cases obm <;> cases orc <;>
    cases ord <;> cases ods <;> cases oca <;>
    simp [ConstraintArtifact.validate, ConstraintArtifactInput.canon, pystrip_idem]

/-- Claim C10: the string fields of validly constructed records are stored
stripped of surrounding whitespace, and two constructions whose string
arguments differ only in surrounding whitespace produce the same result. -/
theorem strip_whitespace_semantics :
    (∀ inp e, JudgmentEvent.validate inp = some e →
       e.id = pystrip e.id ∧ e.intent_hash = pystrip e.intent_hash ∧
       e.runtime_context_hash = pystrip e.runtime_context_hash) ∧
    (∀ i1 i2 : JudgmentEventInput, i1.canon = i2.canon →
       JudgmentEvent.validate i1 = JudgmentEvent.validate i2) ∧
    (∀ inp c, ConstraintArtifact.validate inp = some c →
       c.runtime_context_hash = pystrip c.runtime_context_hash ∧
       c.judgment_id = pystrip c.judgment_id) ∧
    (∀ i1 i2 : ConstraintArtifactInput, i1.canon = i2.canon →
       ConstraintArtifact.validate i1 = ConstraintArtifact.validate i2) := by
  refine ⟨?_, ?_, ?_, ?_⟩
  · intro inp e h
    unfold JudgmentEvent.validate at h
    split at h
    · split at h
      · split at h
        · cases h
          exact ⟨(pystrip_idem _).symm, (pystrip_idem _).symm, (pystrip_idem _).symm⟩
        · exact absurd h (by simp)
      · cases h
        exact ⟨(pystrip_idem _).symm, (pystrip_idem _).symm, (pystrip_idem _).symm⟩
    · exact absurd h (by simp)
  · intro i1 i2 h
    rw [← judgment_validate_canon i1, ← judgment_validate_canon i2, h]
  · intro inp c h
    unfold ConstraintArtifact.validate at h
    split at h
    · split at h
      · split at h
        · split at h
          · cases h
            exact ⟨(pystrip_idem _).symm, (pystrip_idem _).symm⟩
          · exact absurd h (by simp)
        · cases h
          exact ⟨(pystrip_idem _).symm, (pystrip_idem _).symm⟩
      · exact absurd h (by simp)
    · exact absurd h (by simp)
  · intro i1 i2 h
    rw [← constraint_validate_canon i1, ← constraint_validate_canon i2, h]

/-- Witness for C10: two concrete constructions whose string arguments differ
only in surrounding whitespace validate to the same record. -/
theorem strip_whitespace_semantics_witness :
    JudgmentEvent.validate
      { id := some "  je-001 ", decision := some Decision.ADMIT, timestamp := some ⟨0⟩,
        intent_hash := some "ih\t", runtime_context_hash := some " rh" } =
    JudgmentEvent.validate
      { id := some "je-001", decision := some Decision.ADMIT, timestamp := some ⟨0⟩,
        intent_hash := some "ih", runtime_context_hash := some "rh" } :=
  strip_whitespace_semantics.2.1 _ _ (by decide)

/-- Claim C8: once the Constraint Store holds a constraint for a runtime
context's hash, every subsequent `evaluate` call with that runtime context
returns the stored constraint's decision without invoking the Drift Scorer,
leaves the Constraint Store unchanged, and therefore behaves identically on
any further repetition. -/
theorem evaluate_fast_path_idempotent (hasher : String → String)
    (scorer : String → String → ℚ) (fresh : String) (now : DateTime)
    (intent ctx : String) (st : GateState) (c : ConstraintArtifact)
    (h : st.constraints.lookup (hasher ctx) = some c) :
    (evaluate hasher scorer fresh now intent ctx st).decision = c.decision.toDecision ∧
    (evaluate hasher scorer fresh now intent ctx st).scorer_invoked = false ∧
    (evaluate hasher scorer fresh now intent ctx st).state.constraints = st.constraints ∧
    ∀ (scorer2 : String → String → ℚ) (fresh2 : String) (now2 : DateTime) (intent2 : String),
      (evaluate hasher scorer2 fresh2 now2 intent2 ctx
        (evaluate hasher scorer fresh now intent ctx st).state).decision =
        c.decision.toDecision ∧
      (evaluate hasher scorer2 fresh2 now2 intent2 ctx
        (evaluate hasher scorer fresh now intent ctx st).state).scorer_invoked = false := by
  have key : ∀ (sc : String → String → ℚ) (f : String) (n : DateTime) (it : String)
      (s2 : GateState), s2.constraints.lookup (hasher ctx) = some c →
      (evaluate hasher sc f n it ctx s2).decision = c.decision.toDecision ∧
      (evaluate hasher sc f n it ctx s2).scorer_invoked = false ∧
      (evaluate hasher sc f n it ctx s2).state.constraints = s2.constraints := by
    intro sc f n it s2 hs
    unfold evaluate
    exact ⟨by simp only [hs], by simp only [hs], by simp only [hs]⟩
  obtain ⟨k1, k2, k3⟩ := key scorer fresh now intent st h
  refine ⟨k1, k2, k3, ?_⟩
  intro scorer2 fresh2 now2 intent2
  have h2 : (evaluate hasher scorer fresh now intent ctx st).state.constraints.lookup
      (hasher ctx) = some c := by
    rw [k3]
    exact h
  obtain ⟨m1, m2, _⟩ := key scorer2 fresh2 now2 intent2 _ h2
  exact ⟨m1, m2⟩

/-- A concrete stored HALT constraint used by the C8 witness. -/
def storedHaltConstraint : ConstraintArtifact :=
  { runtime_context_hash := "ctx-1", judgment_id := "je-000",
    decision := BlockingDecision.HALT, block_mode := BlockMode.STOP,
    reason_code := ReasonCode.DRIFT_THRESHOLD_EXCEEDED,
    drift_score_at_block := some (mkRat 17 20), created_at := ⟨0⟩ }

/-- A concrete gate state whose Constraint Store holds
`storedHaltConstraint` at key `"ctx-1"`. -/
def storedHaltState : GateState :=
  { constraints := [("ctx-1", storedHaltConstraint)], log := [] }

/-- Witness for C8: with an identity hasher and a scorer that would ADMIT,
a repeated evaluation of context `"ctx-1"` returns HALT without scoring. -/
theorem evaluate_fast_path_idempotent_witness :
    (evaluate id (fun _ _ => 0) "je-001" ⟨1⟩ "intent-2" "ctx-1" storedHaltState).decision =
      Decision.HALT ∧
    (evaluate id (fun _ _ => 0) "je-001" ⟨1⟩ "intent-2" "ctx-1" storedHaltState).scorer_invoked =
      false :=
  ⟨(evaluate_fast_path_idempotent id (fun _ _ => 0) "je-001" ⟨1⟩ "intent-2" "ctx-1"
      storedHaltState storedHaltConstraint rfl).1,
   (evaluate_fast_path_idempotent id (fun _ _ => 0) "je-001" ⟨1⟩ "intent-2" "ctx-1"
      storedHaltState storedHaltConstraint rfl).2.1⟩

theorem Json.asOptNum_ofOptNum (q : Option ℚ) : (Json.ofOptNum q).asOptNum = some q := by
  cases q <;> rfl

theorem Json.asOptStr_ofOptStr (u : Option String) : (Json.ofOptStr u).asOptStr = some u := by
  cases u <;> rfl

theorem decision_str_roundtrip (d : Decision) : Decision.ofStr d.toStr = some d := by
  cases d <;> rfl

theorem blocking_decision_str_roundtrip (bd : BlockingDecision) :
    Decision.ofStr bd.toStr = some bd.toDecision := by
  cases bd <;> rfl

theorem block_mode_str_roundtrip (bm : BlockMode) : BlockMode.ofStr bm.toStr = some bm := by
  cases bm <;> rfl

theorem reason_code_str_roundtrip (rc : ReasonCode) : ReasonCode.ofStr rc.toStr = some rc := by
  cases rc <;> rfl

theorem PriorArtifactRef.ofJson_toJson (r : PriorArtifactRef) :
    PriorArtifactRef.ofJson r.toJson = some r := by
  obtain ⟨t, i, u⟩ := r
  cases u <;> rfl

theorem decodeRefs_map_toJson (l : List PriorArtifactRef) :
    decodeRefs (l.map PriorArtifactRef.toJson) = some l := by
  induction l with
  | nil => rfl
  | cons r l ih => simp [decodeRefs, PriorArtifactRef.ofJson_toJson, ih]

theorem Option.map_pystrip_idem (u : Option String) :
    (u.map pystrip).map pystrip = u.map pystrip := by
  cases u <;> simp [pystrip_idem]

theorem judgment_validate_out {inp : JudgmentEventInput} {e : JudgmentEvent}
    (h : JudgmentEvent.validate inp = some e) :
    pystrip e.id = e.id ∧ pystrip e.intent_hash = e.intent_hash ∧
    pystrip e.runtime_context_hash = e.runtime_context_hash ∧
    (e.drift_score = none ∨ ∃ s, e.drift_score = some s ∧ 0 ≤ s ∧ s ≤ 1) := by
  unfold JudgmentEvent.validate at h
  split at h
  · split at h
    · split at h
      · rename_i hbound
        cases h
        exact ⟨pystrip_idem _, pystrip_idem _, pystrip_idem _, Or.inr ⟨_, rfl, hbound⟩⟩
      · exact absurd h (by simp)
    · cases h
      exact ⟨pystrip_idem _, pystrip_idem _, pystrip_idem _, Or.inl rfl⟩
  · exact absurd h (by simp)

theorem constraint_validate_out {inp : ConstraintArtifactInput}
    {c : ConstraintArtifact} (h : ConstraintArtifact.validate inp = some c) :
    pystrip c.runtime_context_hash = c.runtime_context_hash ∧
    pystrip c.judgment_id = c.judgment_id ∧
    c.reason_detail.map pystrip = c.reason_detail ∧
    (c.drift_score_at_block = none ∨ ∃ s, c.drift_score_at_block = some s ∧ 0 ≤ s ∧ s ≤ 1) := by
  unfold ConstraintArtifact.validate at h
  split at h
  · split at h
    · split at h
      · split at h
        · rename_i hbound
          cases h
          exact ⟨pystrip_idem _, pystrip_idem _, Option.map_pystrip_idem _,
                 Or.inr ⟨_, rfl, hbound⟩⟩
        · exact absurd h (by simp)
      · cases h
        exact ⟨pystrip_idem _, pystrip_idem _, Option.map_pystrip_idem _, Or.inl rfl⟩
    · exact absurd h (by simp)
  · exact absurd h (by simp)

theorem judgment_validate_self (e : JudgmentEvent)
    (hid : pystrip e.id = e.id) (hih : pystrip e.intent_hash = e.intent_hash)
    (hrh : pystrip e.runtime_context_hash = e.runtime_context_hash)
    (hds : e.drift_score = none ∨ ∃ s, e.drift_score = some s ∧ 0 ≤ s ∧ s ≤ 1) :
    JudgmentEvent.validate
      { id := some e.id, decision := some e.decision, timestamp := some e.timestamp,
        intent_hash := some e.intent_hash, runtime_context_hash := some e.runtime_context_hash,
        drift_score := e.drift_score, prior_artifact_refs := some e.prior_artifact_refs } =
      some e := by
  obtain ⟨i, d, t, ih2, rh, ds, refs⟩ := e
  simp only at hid hih hrh hds
  rcases hds with hnone | ⟨s, hsome, hb0, hb1⟩
  · subst hnone
    simp [JudgmentEvent.validate, hid, hih, hrh]
  · subst hsome
    simp [JudgmentEvent.validate, hid, hih, hrh, hb0, hb1]

theorem constraint_validate_self (c : ConstraintArtifact)
    (hrh : pystrip c.runtime_context_hash = c.runtime_context_hash)
    (hjid : pystrip c.judgment_id = c.judgment_id)
    (hrd : c.reason_detail.map pystrip = c.reason_detail)
    (hds : c.drift_score_at_block = none ∨
       ∃ s, c.drift_score_at_block = some s ∧ 0 ≤ s ∧ s ≤ 1) :
    ConstraintArtifact.validate
      { runtime_context_hash := some c.runtime_context_hash,
        judgment_id := some c.judgment_id, decision := some c.decision.toDecision,
        block_mode := some c.block_mode, reason_code := some c.reason_code,
        reason_detail := c.reason_detail, drift_score_at_block := c.drift_score_at_block,
        created_at := some c.created_at } = some c := by
  obtain ⟨rh, jid, d, bm, rc, rd, ds, ca⟩ := c
  simp only at hrh hjid hrd hds
  rcases hds with hnone | ⟨s, hsome, hb0, hb1⟩
  · subst hnone
    cases d <;> simp [ConstraintArtifact.validate, BlockingDecision.toDecision,
      hrh, hjid, hrd]
  · subst hsome
    cases d <;> simp [ConstraintArtifact.validate, BlockingDecision.toDecision,
      hrh, hjid, hrd, hb0, hb1]

theorem judgment_ofJson_toJson {inp : JudgmentEventInput} {e : JudgmentEvent}
    (h : JudgmentEvent.validate inp = some e) :
    JudgmentEvent.ofJson e.toJson = some e := by
  obtain ⟨hid, hih, hrh, hds⟩ := judgment_validate_out h
  have g1 : e.toJson.getStr "id" = some e.id := rfl
  have g2 : (e.toJson.getStr "decision").bind Decision.ofStr = some e.decision :=
    decision_str_roundtrip e.decision
  have g3 : e.toJson.getNum "timestamp" = some e.timestamp.stamp := rfl
  have g4 : e.toJson.getStr "intent_hash" = some e.intent_hash := rfl
  have g5 : e.toJson.getStr "runtime_context_hash" = some e.runtime_context_hash := rfl
  have g6 : e.toJson.getOptNum "drift_score" = some e.drift_score :=
    Json.asOptNum_ofOptNum e.drift_score
  have g7 : (e.toJson.getArr "prior_artifact_refs").bind decodeRefs =
      some e.prior_artifact_refs := decodeRefs_map_toJson e.prior_artifact_refs
  unfold JudgmentEvent.ofJson
  rw [g1, g2, g3, g4, g5, g6, g7]
  exact judgment_validate_self e hid hih hrh hds

theorem constraint_ofJson_toJson {inp : ConstraintArtifactInput}
    {c : ConstraintArtifact} (h : ConstraintArtifact.validate inp = some c) :
    ConstraintArtifact.ofJson c.toJson = some c := by
  obtain ⟨hrh, hjid, hrd, hds⟩ := constraint_validate_out h
  have g1 : c.toJson.getStr "runtime_context_hash" = some c.runtime_context_hash := rfl
  have g2 : c.toJson.getStr "judgment_id" = some c.judgment_id := rfl
  have g3 : (c.toJson.getStr "decision").bind Decision.ofStr =
      some c.decision.toDecision := blocking_decision_str_roundtrip c.decision
  have g4 : (c.toJson.getStr "block_mode").bind BlockMode.ofStr = some c.block_mode :=
    block_mode_str_roundtrip c.block_mode
  have g5 : (c.toJson.getStr "reason_code").bind ReasonCode.ofStr = some c.reason_code :=
    reason_code_str_roundtrip c.reason_code
  have g6 : c.toJson.getOptStr "reason_detail" = some c.reason_detail :=
    Json.asOptStr_ofOptStr c.reason_detail
  have g7 : c.toJson.getOptNum "drift_score_at_block" = some c.drift_score_at_block :=
    Json.asOptNum_ofOptNum c.drift_score_at_block
  have g8 : c.toJson.getNum "created_at" = some c.created_at.stamp := rfl
  unfold ConstraintArtifact.ofJson
  rw [g1, g2, g3, g4, g5, g6, g7, g8]
  exact constraint_validate_self c hrh hjid hrd hds

/-- Claim C6: serializing a validly constructed `JudgmentEvent` or
`ConstraintArtifact` and deserializing the result yields a record equal to
the original in all fields. -/
theorem serialization_roundtrip :
    (∀ inp e, JudgmentEvent.validate inp = some e →
       JudgmentEvent.ofJson e.toJson = some e) ∧
    (∀ inp c, ConstraintArtifact.validate inp = some c →
       ConstraintArtifact.ofJson c.toJson = some c) :=
  ⟨fun _ _ h => judgment_ofJson_toJson h,
   fun _ _ h => constraint_ofJson_toJson h⟩

/-- A concrete validly constructed event used by the C6 witness. -/
def sampleEvent : JudgmentEvent :=
  { id := "je-001", decision := Decision.HALT, timestamp := ⟨0⟩,
    intent_hash := "sha256:abc", runtime_context_hash := "sha256:def",
    drift_score := some (mkRat 17 20),
    prior_artifact_refs := [{ type := "ansys_scenario", id := "as-001",
                              uri := some "artifacts/ansys_scenario_001.json" }] }

/-- A concrete validly constructed artifact used by the C6 witness. -/
def sampleArtifact : ConstraintArtifact :=
  { runtime_context_hash := "sha256:def", judgment_id := "je-001",
    decision := BlockingDecision.HALT, block_mode := BlockMode.STOP,
    reason_code := ReasonCode.DRIFT_THRESHOLD_EXCEEDED,
    reason_detail := some "drift 0.85 above 0.7",
    drift_score_at_block := some (mkRat 17 20), created_at := ⟨0⟩ }

/-- Witness for C6 at the concrete records `sampleEvent` and
`sampleArtifact`. -/
theorem serialization_roundtrip_witness :
    JudgmentEvent.ofJson sampleEvent.toJson = some sampleEvent ∧
    ConstraintArtifact.ofJson sampleArtifact.toJson = some sampleArtifact :=
  ⟨serialization_roundtrip.1
     { id := some "je-001", decision := some Decision.HALT, timestamp := some ⟨0⟩,
       intent_hash := some "sha256:abc", runtime_context_hash := some "sha256:def",
       drift_score := some (mkRat 17 20),
       prior_artifact_refs := some [{ type := "ansys_scenario", id := "as-001",
                                      uri := some "artifacts/ansys_scenario_001.json" }] }
     sampleEvent (by decide),
   serialization_roundtrip.2
     { runtime_context_hash := some "sha256:def", judgment_id := some "je-001",
       decision := some Decision.HALT, block_mode := some BlockMode.STOP,
       reason_code := some ReasonCode.DRIFT_THRESHOLD_EXCEEDED,
       reason_detail := some "drift 0.85 above 0.7",
       drift_score_at_block := some (mkRat 17 20), created_at := some ⟨0⟩ }
     sampleArtifact (by decide)⟩

end Artifact5
